import Mathlib

/-
Verification of the DnD M+ Discord bot (dndmplusbot.py).

Shallow embedding of the pure core of the bot:
  * the calendar arithmetic behind the removal-window rule and the
    weekly sheet rotation (proleptic Gregorian calendar, Python
    `datetime.weekday` convention: Monday = 0, ..., Sunday = 6);
  * `get_current_removal_sheet`, `sanitize_realm`, `get_character_data`,
    `remove_registration`, `check_user_registration`,
    `schedule_signup_date_change` and the persistence step of
    `RegistrationModal.on_submit`.
Spreadsheet worksheets are modelled as lists of records; HTTP responses
and the fuzzy matcher are passed as explicit arguments.
-/

namespace DndBot

/-- Leap-year test of the proleptic Gregorian calendar (as used by
Python `datetime`). -/
def isLeap (y : Nat) : Bool :=
  (y % 4 == 0 && y % 100 != 0) || y % 400 == 0

/-- Number of days in month `m` (1..12) of year `y`. -/
def daysInMonth (y m : Nat) : Nat :=
  if m = 2 then (if isLeap y then 29 else 28)
  else if m = 4 ∨ m = 6 ∨ m = 9 ∨ m = 11 then 30
  else 31

/-- Days of year `y` that lie strictly before month `m`. -/
def daysBeforeMonth (y : Nat) : Nat → Nat
  | 0 => 0
  | 1 => 0
  | m + 2 => daysBeforeMonth y (m + 1) + daysInMonth y (m + 1)

/-- Days strictly before January 1 of year `y`, counting from the
proleptic year 1 (Python `date.toordinal` has Jan 1 of year 1 as day 1). -/
def daysBeforeYear (y : Nat) : Nat :=
  365 * (y - 1) + (y - 1) / 4 + (y - 1) / 400 - (y - 1) / 100

/-- A calendar date as Python `datetime.date` carries it. -/
structure Date where
  year : Nat
  month : Nat
  day : Nat
deriving DecidableEq, Repr

/-- Python `date.toordinal`: Jan 1 of year 1 is ordinal 1. -/
def toordinal (d : Date) : Nat :=
  daysBeforeYear d.year + daysBeforeMonth d.year d.month + d.day

/-- Python `date.weekday`: Monday = 0, ..., Sunday = 6.  Ordinal 1
(Jan 1, year 1) is a Monday. -/
def weekday (d : Date) : Nat :=
  (toordinal d + 6) % 7

/-- The date one day later (`now + datetime.timedelta(days=1)`). -/
def nextDay (d : Date) : Date :=
  if d.day < daysInMonth d.year d.month then ⟨d.year, d.month, d.day + 1⟩
  else if d.month < 12 then ⟨d.year, d.month + 1, 1⟩
  else ⟨d.year + 1, 1, 1⟩

/-- Validity of a `Date`: a value Python `datetime.date` could hold. -/
def Date.Valid (d : Date) : Prop :=
  1 ≤ d.year ∧ 1 ≤ d.month ∧ d.month ≤ 12 ∧ 1 ≤ d.day ∧
    d.day ≤ daysInMonth d.year d.month

instance (d : Date) : Decidable d.Valid := by
  unfold Date.Valid; infer_instance

/-- Zero-padded two-digit rendering, as `strftime` `%m` / `%d`. -/
def pad2 (n : Nat) : String :=
  if n < 10 then "0" ++ toString n else toString n

/-- Rendering as `strftime("%m-%d-%Y")`. -/
def fmtDate (d : Date) : String :=
  pad2 d.month ++ "-" ++ pad2 d.day ++ "-" ++ toString d.year

/-- A wall-clock instant in the fixed reference zone (America/New_York),
to the granularity the bot inspects: date and hour. -/
structure WallClock where
  date : Date
  hour : Nat
deriving DecidableEq, Repr

/-- The cutoff-window test of `get_current_removal_sheet`:
Friday from 18:00, or Saturday before 12:00, reference-zone time. -/
def in_removal_window (now : WallClock) : Bool :=
  (weekday now.date == 4 && now.hour ≥ 18) ||
    (weekday now.date == 5 && now.hour < 12)

/-- The date used for the cutoff-sheet name: tomorrow on Friday,
today otherwise (`get_current_removal_sheet`). -/
def cutoff_date (now : WallClock) : Date :=
  if weekday now.date = 4 then nextDay now.date else now.date

/-- The worksheet title `get_current_removal_sheet` tries to open
during the window. -/
def cutoffSheetName (now : WallClock) : String :=
  "General Info - Cutoff " ++ fmtDate (cutoff_date now)

/-- Model of `get_current_removal_sheet`, over the titles present in the
spreadsheet and the title of the current active worksheet.  Inside the
window it opens the dated cutoff sheet; if that raises (sheet absent) it
falls back to the active worksheet; outside the window it returns the
active worksheet. -/
def get_current_removal_sheet (now : WallClock) (sheetTitles : List String)
    (active : String) : String :=
  if in_removal_window now then
    if cutoffSheetName now ∈ sheetTitles then cutoffSheetName now else active
  else active

/-- Python `str.capitalize` on ASCII text: first character uppercased,
the rest lowercased. -/
def pyCapitalize (s : String) : String :=
  match s.data with
  | [] => ""
  | c :: cs => String.mk (c.toUpper :: cs.map Char.toLower)

/-- Helper for Python `str.split()` with no arguments: walks the
character list, accumulating the current word reversed; whitespace runs
separate words and produce no empty fragments. -/
def pySplitAux : List Char → List Char → List String
  | [], cur => if cur.isEmpty then [] else [String.mk cur.reverse]
  | c :: cs, cur =>
    if c.isWhitespace then
      if cur.isEmpty then pySplitAux cs []
      else String.mk cur.reverse :: pySplitAux cs []
    else pySplitAux cs (c :: cur)

/-- Python `str.split()` with no arguments. -/
def pySplit (s : String) : List String :=
  pySplitAux s.data []

/-- The normalization step of `sanitize_realm`:
`" ".join(word.capitalize() for word in realm_name.split())`. -/
def standardize_realm (realm_name : String) : String :=
  String.intercalate " " ((pySplit realm_name).map pyCapitalize)

/-- The Python value `sanitize_realm` returns: either a 2-tuple (each
component a string or `None`), or the bare `None` produced by falling off
the end of the function body. -/
inductive SanitizeResult where
  | pair (slug : Option String) (name : Option String)
  | bareNone
deriving DecidableEq, Repr

/-- Model of `sanitize_realm`, over a lookup table (the `server_lookup` dict as an
association list) and the fuzzy matcher (`process.extractOne`, returning a
best key and its 0..100 score; `Option.none` models the matcher raising,
which the `except` branch turns into `(None, None)`).  When the fuzzy score
is not above 80 and nothing raised, control falls off the end of the
function, which in Python returns a bare `None`. -/
def sanitize_realm (table : List (String × String))
    (extractOne : String → List String → Option (String × Nat))
    (realm_name : String) : SanitizeResult :=
  let standardized := standardize_realm realm_name
  match table.lookup standardized with
  | some slug => .pair (some slug) (some standardized)
  | Option.none =>
    match extractOne standardized (table.map Prod.fst) with
    | Option.none => .pair Option.none Option.none
    | some (best, score) =>
      if score > 80 then
        match table.lookup best with
        | some slug => .pair (some slug) (some best)
        | Option.none => .pair Option.none Option.none
      else .bareNone

/-- A JSON-ish field value as the bot handles it: Python `None`, a
string, or a number. -/
inductive PyVal where
  | null
  | str (s : String)
  | int (n : Int)
deriving DecidableEq, Repr

/-- Fields `get_character_data` reads from the character-attributes
response body: `data.get("character_class", {}).get("name")` and
`data.get("equipped_item_level")` (each `null` when absent). -/
structure CharData where
  character_class_name : PyVal
  equipped_item_level : PyVal
deriving DecidableEq, Repr

/-- One entry of `best_runs`; `keystone_level` defaults to 0 when the
key is absent (`run.get("keystone_level", 0)`). -/
structure BestRun where
  keystone_level : Option Int
deriving DecidableEq, Repr

/-- Fields `get_character_data` reads from the mythic-profile response
body: `mythic_data.get("mythic_rating", {}).get("rating", "N/A")`
(`Option.none` models the key chain missing, defaulted to `"N/A"`) and
`mythic_data.get("best_runs", {})` (absent key behaves as empty). -/
structure MythicData where
  rating : Option PyVal
  best_runs : List BestRun
deriving DecidableEq, Repr

/-- Computes `max(run.get("keystone_level", 0) for run in best_runs) if best_runs
else "N/A"`. -/
def highest_key_of (runs : List BestRun) : PyVal :=
  match runs.map (fun r => r.keystone_level.getD 0) with
  | [] => .str "N/A"
  | k :: ks => .int (ks.foldl max k)

/-- A Python optional string as a `PyVal`. -/
def optStr : Option String → PyVal
  | Option.none => .null
  | some s => .str s

/-- Model of `get_character_data`, over the realm-resolution outcome and the two
HTTP responses (status code plus parsed body each).  Returns the 5-tuple
`(character_class, item_level, mythic_plus_rating, highest_key,
correct_realm_name)`. -/
def get_character_data (sanitized_realm correct_realm_name : Option String)
    (charStatus : Nat) (charData : CharData)
    (mythicStatus : Nat) (mythicData : MythicData) :
    PyVal × PyVal × PyVal × PyVal × PyVal :=
  match sanitized_realm with
  | Option.none => (.null, .null, .null, .null, .null)
  | some _ =>
    if charStatus = 200 then
      let character_class := charData.character_class_name
      let item_level := charData.equipped_item_level
      if mythicStatus = 200 then
        let mythic_plus_rating := mythicData.rating.getD (.str "N/A")
        let highest_key := highest_key_of mythicData.best_runs
        (character_class, item_level, mythic_plus_rating, highest_key,
          optStr correct_realm_name)
      else (.null, .null, .null, .null, optStr correct_realm_name)
    else (.null, .null, .null, .null, optStr correct_realm_name)

/-- One row of the active worksheet, keyed as `get_all_records` keys it
(fixed column order of `row_data` in `RegistrationModal.on_submit`).
All cells are modelled as strings. -/
structure Record where
  submission_time : String
  character : String
  charClass : String
  discord_user : String
  realm : String
  role : String
  item_level : String
  mythic_plus_rating : String
  highest_key : String
  key_range : String
  empty_col : String
  special_requests : String
deriving DecidableEq, Repr

/-- One row of the "Removed Signups" worksheet: removal timestamp plus
the fixed subset of fields `remove_registration` copies over. -/
structure RemovedRow where
  removal_time : String
  character : String
  charClass : String
  discord_user : String
  realm : String
  role : String
deriving DecidableEq, Repr

/-- The row `remove_registration` appends to "Removed Signups" for a
matched record, given the current timestamp string. -/
def removedRowOf (now_ts : String) (r : Record) : RemovedRow :=
  ⟨now_ts, r.character, r.charClass, r.discord_user, r.realm, r.role⟩

/-- Model of `check_user_registration`: linear scan of the active worksheet for
the first record whose "Discord User" cell equals the given name. -/
def check_user_registration (records : List Record) (discord_name : String) :
    Option Record :=
  match records with
  | [] => Option.none
  | r :: rs =>
    if r.discord_user = discord_name then some r
    else check_user_registration rs discord_name

/-- The match test of `remove_registration`'s loop: character, realm and
Discord user must all be equal (case-sensitive). -/
def matchesRemoval (r : Record) (character_name realm discord_name : String) :
    Bool :=
  r.character = character_name && r.realm = realm &&
    r.discord_user = discord_name

/-- Model of `remove_registration`, over the search worksheet (resolved by
`get_current_removal_sheet`) and the "Removed Signups" worksheet.  Scans
in order; at the first match it appends the archival row, deletes that
row from the search worksheet, and returns `true`; with no match it
returns `false` and changes nothing.  Returns the updated pair of
worksheets and the success flag. -/
def remove_registration (records : List Record) (removed : List RemovedRow)
    (character_name realm discord_name now_ts : String) :
    List Record × List RemovedRow × Bool :=
  match records with
  | [] => ([], removed, false)
  | r :: rs =>
    if matchesRemoval r character_name realm discord_name then
      (rs, removed ++ [removedRowOf now_ts r], true)
    else
      let res := remove_registration rs removed character_name realm
        discord_name now_ts
      (r :: res.1, res.2.1, res.2.2)

/-- Index and record of the first row matching all three removal keys,
in table order. -/
def findFirstMatch (records : List Record)
    (character_name realm discord_name : String) : Option (Nat × Record) :=
  match records with
  | [] => Option.none
  | r :: rs =>
    if matchesRemoval r character_name realm discord_name then some (0, r)
    else (findFirstMatch rs character_name realm discord_name).map
      (fun p => (p.1 + 1, p.2))

/-- User-visible messages of the persistence step of
`RegistrationModal.on_submit`. -/
inductive BotMsg where
  | sheetError
  | completion
deriving DecidableEq, Repr

/-- The persistence step of `RegistrationModal.on_submit`: one call to
`worksheet.append_row` inside `try`; on failure the error message is sent
and the handler returns before the completion message.  Returns the
worksheet after the step, the number of append attempts made, and the
messages sent. -/
def on_submit_persist (records : List Record) (row : Record)
    (appendOk : Bool) : List Record × Nat × List BotMsg :=
  if appendOk then (records ++ [row], 1, [BotMsg.completion])
  else (records, 1, [BotMsg.sheetError])

/-- The spreadsheet as rotation sees it: worksheets (title and rows,
each row a list of cells) plus the title the global `worksheet`
reference points at. -/
structure SpreadState where
  sheets : List (String × List (List String))
  activeTitle : String
deriving DecidableEq, Repr

/-- Cells of row 1 (`worksheet.row_values(1)`) of the sheet named `t`. -/
def headerRowOf (sheets : List (String × List (List String)))
    (t : String) : List String :=
  ((sheets.lookup t).getD []).headD []

/-- Model of `schedule_signup_date_change` applied at `now`: on Friday it renames
the active worksheet with the cutoff-date suffix (tomorrow's date),
creates a fresh "General Info" sheet holding only the copied header row,
and repoints the global `worksheet` reference at it; on any other day it
does nothing. -/
def schedule_signup_date_change (now : WallClock) (st : SpreadState) :
    SpreadState :=
  if weekday now.date = 4 then
    let cutoff := fmtDate (nextDay now.date)
    let newTitle := st.activeTitle ++ " - Cutoff " ++ cutoff
    let header := headerRowOf st.sheets st.activeTitle
    { sheets :=
        (st.sheets.map (fun p =>
          if p.1 = st.activeTitle then (newTitle, p.2) else p)) ++
          [("General Info", [header])],
      activeTitle := "General Info" }
  else st

/-- A sample registration record used in concrete instantiations. -/
def sampleRecord : Record :=
  ⟨"01/01/2025 12:00:00", "Alice", "Mage", "alice", "Stormrage", "DPS",
    "450", "2500", "12", "4-6 (Runed)", "", "no requests"⟩

/-- Arithmetic characterization of the leap-year test. -/
theorem isLeap_iff (y : Nat) :
    isLeap y = true ↔ (y % 4 = 0 ∧ y % 100 ≠ 0) ∨ y % 400 = 0 := by
  simp [isLeap, Bool.or_eq_true, Bool.and_eq_true, beq_iff_eq, bne_iff_ne]

set_option maxHeartbeats 1600000 in
/-- Each year contributes 365 days, plus one in leap years. -/
theorem daysBeforeYear_succ (y : Nat) (hy : 1 ≤ y) :
    daysBeforeYear (y + 1) =
      daysBeforeYear y + 365 + (if isLeap y then 1 else 0) := by
  have hiff := isLeap_iff y
  unfold daysBeforeYear
  by_cases hL : isLeap y = true
  · rw [if_pos hL]
    rw [hiff] at hL
    clear hiff
    omega
  · rw [if_neg hL]
    have hL' : ¬((y % 4 = 0 ∧ y % 100 ≠ 0) ∨ y % 400 = 0) :=
      fun h => hL (hiff.mpr h)
    clear hiff hL
    omega

/-- Unfolding step for the month prefix sums, for real months. -/
theorem daysBeforeMonth_succ (y m : Nat) (hm : 1 ≤ m) :
    daysBeforeMonth y (m + 1) = daysBeforeMonth y m + daysInMonth y m := by
  obtain ⟨k, rfl⟩ : ∃ k, m = k + 1 := ⟨m - 1, by omega⟩
  rfl

/-- The eleven months before December hold 334 days, 335 in a leap year. -/
theorem daysBeforeMonth_twelve (y : Nat) :
    daysBeforeMonth y 12 = 334 + (if isLeap y then 1 else 0) := by
  show 0 + daysInMonth y 1 + daysInMonth y 2 + daysInMonth y 3 +
    daysInMonth y 4 + daysInMonth y 5 + daysInMonth y 6 + daysInMonth y 7 +
    daysInMonth y 8 + daysInMonth y 9 + daysInMonth y 10 +
    daysInMonth y 11 = _
  cases h : isLeap y <;> simp [daysInMonth, h]

/-- Stepping a valid date forward one day advances the ordinal by one. -/
theorem toordinal_nextDay (d : Date) (hv : d.Valid) :
    toordinal (nextDay d) = toordinal d + 1 := by
  obtain ⟨hy, hm1, hm12, _, hdm⟩ := hv
  unfold nextDay
  by_cases h1 : d.day < daysInMonth d.year d.month
  · rw [if_pos h1]
    unfold toordinal
    dsimp only
    omega
  · rw [if_neg h1]
    by_cases h2 : d.month < 12
    · rw [if_pos h2]
      have hday : d.day = daysInMonth d.year d.month := by omega
      have hstep := daysBeforeMonth_succ d.year d.month hm1
      unfold toordinal
      dsimp only
      omega
    · rw [if_neg h2]
      have hm : d.month = 12 := by omega
      have h31 : daysInMonth d.year 12 = 31 := rfl
      have hday : d.day = 31 := by rw [hm] at hdm h1; rw [h31] at hdm h1; omega
      have h12 := daysBeforeMonth_twelve d.year
      have hys := daysBeforeYear_succ d.year hy
      have hb1 : daysBeforeMonth (d.year + 1) 1 = 0 := rfl
      unfold toordinal
      dsimp only
      rw [hm, hday, hb1, h12, hys]
      cases hIL : isLeap d.year <;> simp [hIL]

/-- Stepping a valid date forward one day advances the weekday cyclically. -/
theorem weekday_nextDay (d : Date) (hv : d.Valid) :
    weekday (nextDay d) = (weekday d + 1) % 7 := by
  unfold weekday
  rw [toordinal_nextDay d hv]
  omega

/-- Characterization of `remove_registration` by the first matching row:
it erases exactly that row and archives exactly that row, and does
nothing when no row matches. -/
theorem remove_registration_eq (records : List Record)
    (removed : List RemovedRow) (ch rlm usr ts : String) :
    remove_registration records removed ch rlm usr ts =
      match findFirstMatch records ch rlm usr with
      | Option.none => (records, removed, false)
      | some (i, r) =>
        (records.eraseIdx i, removed ++ [removedRowOf ts r], true) := by
  induction records with
  | nil => rfl
  | cons r rs ih =>
    by_cases hm : matchesRemoval r ch rlm usr = true
    · simp [remove_registration, findFirstMatch, hm, List.eraseIdx]
    · simp only [remove_registration, findFirstMatch, hm, if_false,
        Bool.false_eq_true, ih]
      cases hf : findFirstMatch rs ch rlm usr with
      | none => simp [hf]
      | some p =>
        obtain ⟨i, q⟩ := p
        simp [hf, List.eraseIdx]

/-- A table holding a matching row yields a first match with its index
in range. -/
theorem findFirstMatch_of_exists (records : List Record) (ch rlm usr : String)
    (h : ∃ r ∈ records, matchesRemoval r ch rlm usr = true) :
    ∃ i r, findFirstMatch records ch rlm usr = some (i, r) ∧
      i < records.length ∧ r ∈ records ∧
      matchesRemoval r ch rlm usr = true := by
  induction records with
  | nil => simp at h
  | cons a rs ih =>
    by_cases hm : matchesRemoval a ch rlm usr = true
    · exact ⟨0, a, by simp [findFirstMatch, hm], by simp, by simp, hm⟩
    · obtain ⟨r, hr, hmr⟩ := h
      rcases List.mem_cons.mp hr with rfl | hr'
      · exact absurd hmr hm
      · obtain ⟨i, q, hf, hi, hq, hmq⟩ := ih ⟨r, hr', hmr⟩
        refine ⟨i + 1, q, ?_, by simpa using Nat.succ_lt_succ hi,
          by simp [hq], hmq⟩
        simp [findFirstMatch, hm, hf]

/-- A table with no matching row has no first match. -/
theorem findFirstMatch_eq_none (records : List Record) (ch rlm usr : String)
    (h : ∀ r ∈ records, matchesRemoval r ch rlm usr = false) :
    findFirstMatch records ch rlm usr = Option.none := by
  induction records with
  | nil => rfl
  | cons a rs ih =>
    have ha := h a (by simp)
    simp [findFirstMatch, ha, ih (fun r hr => h r (by simp [hr]))]

/-- C1 (amended): for every removal call, between Friday 18:00 and
Saturday 12:00 in the reference time zone the search targets the dated
cutoff table named from the cutoff date — which is a Saturday — when a
table of that name exists (otherwise it falls back to the active table),
and at any time outside that window the search targets the current
active table. -/
theorem dnd_C1_removal_table_selection (now : WallClock)
    (sheetTitles : List String) (active : String) (hv : now.date.Valid) :
    (in_removal_window now = true →
      weekday (cutoff_date now) = 5 ∧
      get_current_removal_sheet now sheetTitles active =
        (if cutoffSheetName now ∈ sheetTitles then cutoffSheetName now
         else active)) ∧
    (in_removal_window now = false →
      get_current_removal_sheet now sheetTitles active = active) := by
  constructor
  · intro h
    refine ⟨?_, ?_⟩
    · unfold cutoff_date
      unfold in_removal_window at h
      simp only [Bool.or_eq_true, Bool.and_eq_true, beq_iff_eq,
        decide_eq_true_eq] at h
      by_cases h4 : weekday now.date = 4
      · rw [if_pos h4, weekday_nextDay now.date hv, h4]
      · rw [if_neg h4]
        rcases h with ⟨h5, _⟩ | ⟨h5, _⟩
        · exact absurd h5 h4
        · exact h5
    · unfold get_current_removal_sheet
      rw [h]
      simp
  · intro h
    unfold get_current_removal_sheet
    rw [h]
    simp

/-- Witness for C1 at Friday Jan 3 2025, 19:00, with the cutoff sheet
present. -/
theorem dnd_C1_witness :
    weekday (cutoff_date ⟨⟨2025, 1, 3⟩, 19⟩) = 5 ∧
    get_current_removal_sheet ⟨⟨2025, 1, 3⟩, 19⟩
      ["General Info", "General Info - Cutoff 01-04-2025"] "General Info" =
      "General Info - Cutoff 01-04-2025" := by
  have h := dnd_C1_removal_table_selection ⟨⟨2025, 1, 3⟩, 19⟩
    ["General Info", "General Info - Cutoff 01-04-2025"] "General Info"
    (by decide)
  refine ⟨(h.1 (by decide)).1, ?_⟩
  have h2 := (h.1 (by decide)).2
  rw [h2]
  decide

/-- Counterexample to C1 as stated: Friday Jan 3 2025 at 19:00 is inside
the window, yet with the cutoff table absent the removal searches the
current active table, not the dated cutoff table. -/
theorem dnd_C1_counterexample :
    in_removal_window ⟨⟨2025, 1, 3⟩, 19⟩ = true ∧
    get_current_removal_sheet ⟨⟨2025, 1, 3⟩, 19⟩
      ["General Info", "Removed Signups"] "General Info" = "General Info" ∧
    "General Info" ≠ cutoffSheetName ⟨⟨2025, 1, 3⟩, 19⟩ := by
  decide

/-- C2 (amended): when realm resolution succeeded, a response other than
HTTP 200 at either stage yields `(None, None, None, None, realm display
name)`; in particular a failure of the second (ranked-score) stage also
discards the class and item level already obtained by the successful
first stage, while the realm display name resolved earlier is returned in
every such case. -/
theorem dnd_C2_failure_nulls_all (s : String) (crn : Option String)
    (cs : Nat) (cd : CharData) (ms : Nat) (md : MythicData)
    (h : cs ≠ 200 ∨ ms ≠ 200) :
    get_character_data (some s) crn cs cd ms md =
      (.null, .null, .null, .null, optStr crn) := by
  unfold get_character_data
  by_cases h1 : cs = 200
  · subst h1
    rcases h with h | h
    · exact absurd rfl h
    · rw [if_pos rfl, if_neg h]
  · rw [if_neg h1]

/-- Witness for C2 at a concrete first-stage failure. -/
theorem dnd_C2_witness :
    ((404 : Nat) ≠ 200 ∨ (200 : Nat) ≠ 200) ∧
    get_character_data (some "stormrage") (some "Stormrage") 404
      ⟨.null, .null⟩ 200 ⟨Option.none, []⟩ =
      (.null, .null, .null, .null, optStr (some "Stormrage")) :=
  ⟨Or.inl (by decide),
    dnd_C2_failure_nulls_all "stormrage" (some "Stormrage") 404
      ⟨.null, .null⟩ 200 ⟨Option.none, []⟩ (Or.inl (by decide))⟩

/-- Counterexample to C2 as stated: first stage succeeds (status 200,
class "Mage", item level 450), second stage fails (status 404), yet the
returned class and item level are `None`, not the first-stage values. -/
theorem dnd_C2_counterexample :
    get_character_data (some "stormrage") (some "Stormrage") 200
      ⟨.str "Mage", .int 450⟩ 404 ⟨Option.none, []⟩ =
      (.null, .null, .null, .null, .str "Stormrage") ∧
    PyVal.null ≠ PyVal.str "Mage" := by
  decide

/-- C3: evaluation of `sanitize_realm` at an input whose standardized
form has no exact match and whose best fuzzy candidate scores 30: the
function falls off the end, producing the bare `None` of Python — not the
documented `(None, None)` pair. -/
theorem dnd_C3_bug_eval :
    sanitize_realm [("Stormrage", "stormrage")]
      (fun _ ks => match ks with
        | [] => Option.none
        | k :: _ => some (k, 30)) "Qqqq" = SanitizeResult.bareNone ∧
    SanitizeResult.bareNone ≠ SanitizeResult.pair Option.none Option.none := by
  decide

/-- C4: when no record with the given user id is in the active table,
appending a record for that user and then looking the user up returns a
record equal in all fields to what was appended. -/
theorem dnd_C4_append_find (records : List Record) (rec : Record)
    (h : ∀ r ∈ records, r.discord_user ≠ rec.discord_user) :
    check_user_registration (records ++ [rec]) rec.discord_user =
      some rec := by
  induction records with
  | nil => simp [check_user_registration]
  | cons r rs ih =>
    have hr : r.discord_user ≠ rec.discord_user := h r (by simp)
    simp only [List.cons_append, check_user_registration]
    rw [if_neg hr]
    exact ih (fun x hx => h x (by simp [hx]))

/-- Witness for C4 on the empty table. -/
theorem dnd_C4_witness :
    (∀ r ∈ ([] : List Record), r.discord_user ≠ sampleRecord.discord_user) ∧
    check_user_registration ([] ++ [sampleRecord])
      sampleRecord.discord_user = some sampleRecord :=
  ⟨by simp, dnd_C4_append_find [] sampleRecord (by simp)⟩

/-- C5: a successful removal of a matching record appends exactly one
row — the fixed subset of its fields plus the removal timestamp — to the
archival table (its row count grows by one), deletes one row from the
search table (its row count shrinks by one), and returns success. -/
theorem dnd_C5_remove_match (records : List Record)
    (removed : List RemovedRow) (ch rlm usr ts : String)
    (h : ∃ r ∈ records, matchesRemoval r ch rlm usr = true) :
    ∃ r ∈ records, matchesRemoval r ch rlm usr = true ∧
      (remove_registration records removed ch rlm usr ts).2.1 =
        removed ++ [removedRowOf ts r] ∧
      (remove_registration records removed ch rlm usr ts).2.1.length =
        removed.length + 1 ∧
      (remove_registration records removed ch rlm usr ts).1.length + 1 =
        records.length ∧
      (remove_registration records removed ch rlm usr ts).2.2 = true := by
  obtain ⟨i, r, hf, hi, hr, hm⟩ := findFirstMatch_of_exists records ch rlm usr h
  have hlen := List.length_eraseIdx_of_lt hi
  refine ⟨r, hr, hm, ?_, ?_, ?_, ?_⟩
  · rw [remove_registration_eq, hf]
  · rw [remove_registration_eq, hf]
    simp
  · rw [remove_registration_eq, hf]
    show (records.eraseIdx i).length + 1 = records.length
    omega
  · rw [remove_registration_eq, hf]

/-- Witness for C5 on a one-row table. -/
theorem dnd_C5_witness :
    ∃ r ∈ [sampleRecord],
      matchesRemoval r "Alice" "Stormrage" "alice" = true ∧
      (remove_registration [sampleRecord] ([] : List RemovedRow) "Alice"
        "Stormrage" "alice" "01/04/2025 10:00:00").2.1 =
        ([] : List RemovedRow) ++ [removedRowOf "01/04/2025 10:00:00" r] ∧
      (remove_registration [sampleRecord] ([] : List RemovedRow) "Alice"
        "Stormrage" "alice" "01/04/2025 10:00:00").2.1.length =
        ([] : List RemovedRow).length + 1 ∧
      (remove_registration [sampleRecord] ([] : List RemovedRow) "Alice"
        "Stormrage" "alice" "01/04/2025 10:00:00").1.length + 1 =
        [sampleRecord].length ∧
      (remove_registration [sampleRecord] ([] : List RemovedRow) "Alice"
        "Stormrage" "alice" "01/04/2025 10:00:00").2.2 = true :=
  dnd_C5_remove_match [sampleRecord] [] "Alice" "Stormrage" "alice"
    "01/04/2025 10:00:00" ⟨sampleRecord, by decide, by decide⟩

/-- C6: when no record matches character, realm and user id
simultaneously, removal returns failure and leaves the search table and
the archival table unchanged. -/
theorem dnd_C6_remove_nomatch (records : List Record)
    (removed : List RemovedRow) (ch rlm usr ts : String)
    (h : ∀ r ∈ records, matchesRemoval r ch rlm usr = false) :
    remove_registration records removed ch rlm usr ts =
      (records, removed, false) := by
  rw [remove_registration_eq, findFirstMatch_eq_none records ch rlm usr h]

/-- Witness for C6 on a one-row table with a non-matching key. -/
theorem dnd_C6_witness :
    (∀ r ∈ [sampleRecord],
      matchesRemoval r "Bob" "Stormrage" "bob" = false) ∧
    remove_registration [sampleRecord] ([] : List RemovedRow) "Bob"
      "Stormrage" "bob" "01/04/2025 10:00:00" =
      ([sampleRecord], ([] : List RemovedRow), false) :=
  ⟨by decide,
    dnd_C6_remove_nomatch [sampleRecord] [] "Bob" "Stormrage" "bob"
      "01/04/2025 10:00:00" (by decide)⟩

/-- C7: invoking the rotation at a time whose weekday is not Friday is a
no-op: the whole spreadsheet state — worksheets and the active-table
pointer — is unchanged, so nothing is renamed and no table is created. -/
theorem dnd_C7_rotate_nonfriday_noop (now : WallClock) (st : SpreadState)
    (h : weekday now.date ≠ 4) :
    schedule_signup_date_change now st = st := by
  unfold schedule_signup_date_change
  rw [if_neg h]

/-- Witness for C7 on Wednesday Jan 1 2025. -/
theorem dnd_C7_witness :
    weekday (⟨2025, 1, 1⟩ : Date) ≠ 4 ∧
    schedule_signup_date_change ⟨⟨2025, 1, 1⟩, 18⟩
      ⟨[("General Info", [["Timestamp", "Character"]])], "General Info"⟩ =
      ⟨[("General Info", [["Timestamp", "Character"]])], "General Info"⟩ :=
  ⟨by decide,
    dnd_C7_rotate_nonfriday_noop ⟨⟨2025, 1, 1⟩, 18⟩ _ (by decide)⟩

/-- C8: when the single append of the persistence step fails, the store
is unchanged, exactly one append was attempted (no retry), the failure is
reported to the user, and the completion message of the `Confirmed` state
is never produced. -/
theorem dnd_C8_persist_failure (records : List Record) (row : Record) :
    on_submit_persist records row false =
      (records, 1, [BotMsg.sheetError]) ∧
    BotMsg.completion ∉ (on_submit_persist records row false).2.2 := by
  constructor
  · rfl
  · simp [on_submit_persist]

/-- C9: during the cutoff window, when the expected dated cutoff table
does not exist, the removal-table selection silently falls back to the
current active table. -/
theorem dnd_C9_cutoff_fallback (now : WallClock) (sheetTitles : List String)
    (active : String) (hw : in_removal_window now = true)
    (habs : cutoffSheetName now ∉ sheetTitles) :
    get_current_removal_sheet now sheetTitles active = active := by
  unfold get_current_removal_sheet
  rw [hw]
  simp [habs]

/-- Witness for C9 at Friday Jan 3 2025, 19:00 with only the active sheet
present. -/
theorem dnd_C9_witness :
    in_removal_window ⟨⟨2025, 1, 3⟩, 19⟩ = true ∧
    cutoffSheetName ⟨⟨2025, 1, 3⟩, 19⟩ ∉ (["General Info"] : List String) ∧
    get_current_removal_sheet ⟨⟨2025, 1, 3⟩, 19⟩ ["General Info"]
      "General Info" = "General Info" :=
  ⟨by decide, by decide,
    dnd_C9_cutoff_fallback ⟨⟨2025, 1, 3⟩, 19⟩ ["General Info"]
      "General Info" (by decide) (by decide)⟩

/-- C10: one removal call archives and deletes at most one row — the
archival table grows by at most one — and the row moved is exactly the
first matching row in table order, after which the scan stops. -/
theorem dnd_C10_remove_first_match_only (records : List Record)
    (removed : List RemovedRow) (ch rlm usr ts : String) :
    (remove_registration records removed ch rlm usr ts).2.1.length ≤
      removed.length + 1 ∧
    remove_registration records removed ch rlm usr ts =
      (match findFirstMatch records ch rlm usr with
       | Option.none => (records, removed, false)
       | some (i, r) =>
         (records.eraseIdx i, removed ++ [removedRowOf ts r], true)) := by
  refine ⟨?_, remove_registration_eq records removed ch rlm usr ts⟩
  rw [remove_registration_eq records removed ch rlm usr ts]
  cases hf : findFirstMatch records ch rlm usr with
  | none => simp
  | some p =>
    obtain ⟨i, r⟩ := p
    simp

end DndBot
